import Mathlib

/-!
Verification of the solcast-proxy caching reverse proxy.

This file gives a shallow embedding of the Rust sources `src/cache.rs`,
`src/proxy.rs` and `src/main.rs` of the `solcast-proxy` repository:

* the cache store `ProxyCache` (entries map, last-attempt map) and its
  operations `cache_key`, `get`, `is_fresh`, `can_fetch`, `mark_attempt`,
  `set`, together with the disk snapshot (`save / load`) modelled at the
  level of a JSON value tree;
* the request orchestrator `proxy_handler` with its fallback helper
  `try_fallback`, modelled as a pure state-passing function parameterised
  by an upstream oracle; the upstream calls made are returned as a trace.

Wall-clock time (`chrono::Utc`) is modelled as `Int` seconds; the
monotonic clock (`tokio::time::Instant`) is also modelled as `Int`
seconds with the saturating subtraction of `Instant::elapsed` made
explicit via `Int.toNat`.
-/

namespace SolcastProxy

/-- Association list with at-most-one binding per key, modelling the
Rust `HashMap<String, α>`. Lookup returns the first (unique) binding. -/
def lookupA {α : Type} : List (String × α) → String → Option α
  | [], _ => none
  | (k', v) :: t, k => if k' = k then some v else lookupA t k

/-- Remove every binding for a key, an auxiliary for replacement. -/
def eraseKey {α : Type} (k : String) : List (String × α) → List (String × α)
  | [] => []
  | (k', v) :: t => if k' = k then eraseKey k t else (k', v) :: eraseKey k t

/-- Insert (replace) a binding, modelling `HashMap::insert`. -/
def insertA {α : Type} (m : List (String × α)) (k : String) (v : α) :
    List (String × α) :=
  (k, v) :: eraseKey k m

theorem lookupA_eraseKey {α : Type} (m : List (String × α)) (k k' : String) :
    lookupA (eraseKey k m) k' = if k' = k then none else lookupA m k' := by
  induction m with
  | nil => simp [eraseKey, lookupA]
  | cons p t ih =>
    obtain ⟨pk, pv⟩ := p
    simp only [eraseKey]
    by_cases hpk : pk = k
    · rw [if_pos hpk, ih]
      by_cases hk' : k' = k
      · rw [if_pos hk', if_pos hk']
      · rw [if_neg hk', if_neg hk']
        simp only [lookupA]
        have hpk' : ¬pk = k' := fun h => hk' (h.symm.trans hpk)
        rw [if_neg hpk']
    · rw [if_neg hpk]
      simp only [lookupA]
      by_cases hpk' : pk = k'
      · have hk'k : ¬k' = k := fun h => hpk (hpk'.trans h)
        rw [if_pos hpk', if_neg hk'k, if_pos hpk']
      · rw [if_neg hpk', ih]
        by_cases hk' : k' = k
        · rw [if_pos hk', if_pos hk']
        · rw [if_neg hk', if_neg hk', if_neg hpk']

theorem lookupA_insertA {α : Type} (m : List (String × α)) (k k' : String)
    (v : α) :
    lookupA (insertA m k v) k' = if k = k' then some v else lookupA m k' := by
  simp only [insertA, lookupA]
  by_cases h : k = k'
  · rw [if_pos h, if_pos h]
  · rw [if_neg h, if_neg h, lookupA_eraseKey,
      if_neg (fun hc => h hc.symm)]

/-- A single cached response (`CacheEntry` in `cache.rs`): body text,
content type, and the UTC fetch timestamp in seconds. -/
structure CacheEntry where
  body : String
  content_type : String
  fetched_at : Int
  deriving Repr, DecidableEq

/-- Cache key: (rooftop_id, endpoint_type) serialized as
"rooftop_id:endpoint_type" (`cache_key` in `cache.rs`). -/
def cache_key (rooftop_id : String) (endpoint : String) : String :=
  rooftop_id ++ ":" ++ endpoint

/-- The in-memory state of `ProxyCache` from `cache.rs`: the entries map
and the per-bucket last-attempt map (monotonic seconds). -/
structure ProxyCache where
  entries : List (String × CacheEntry)
  last_attempt : List (String × Int)
  deriving Repr, DecidableEq

/-- Get a cached entry together with its age in seconds
(`ProxyCache::get`); age is wall-clock now minus fetch timestamp. -/
def ProxyCache.get (c : ProxyCache) (rooftop_id endpoint : String)
    (wallNow : Int) : Option (CacheEntry × Int) :=
  (lookupA c.entries (cache_key rooftop_id endpoint)).map fun e =>
    (e, wallNow - e.fetched_at)

/-- Check whether the cached entry is fresh, i.e. within TTL
(`ProxyCache::is_fresh`): the age must be nonnegative and, cast to an
unsigned count of seconds, strictly below `ttl_secs`. -/
def ProxyCache.is_fresh (c : ProxyCache) (rooftop_id endpoint : String)
    (ttl_secs : Nat) (wallNow : Int) : Bool :=
  match lookupA c.entries (cache_key rooftop_id endpoint) with
  | some e =>
      let age := wallNow - e.fetched_at
      decide (0 ≤ age) && decide (age.toNat < ttl_secs)
  | none => false

/-- Check whether the rate limit allows a new upstream fetch
(`ProxyCache::can_fetch`): true when no attempt is recorded for the
bucket, or when the elapsed monotonic time since the last attempt is at
least `rate_limit_secs`. `Instant::elapsed` saturates at zero for
timestamps in the future, hence the `Int.toNat`. -/
def ProxyCache.can_fetch (c : ProxyCache) (rooftop_id endpoint : String)
    (rate_limit_secs : Nat) (monoNow : Int) : Bool :=
  match lookupA c.last_attempt (cache_key rooftop_id endpoint) with
  | some last => decide (rate_limit_secs ≤ (monoNow - last).toNat)
  | none => true

/-- Record an upstream fetch attempt for rate limiting
(`ProxyCache::mark_attempt`): stamp the bucket with the current
monotonic time. -/
def ProxyCache.mark_attempt (c : ProxyCache) (rooftop_id endpoint : String)
    (monoNow : Int) : ProxyCache :=
  let m := insertA c.last_attempt (cache_key rooftop_id endpoint) monoNow
  { c with last_attempt := m }

/-- Modelled from the spec: `mark_failed_attempt` is called from
`proxy.rs` but its definition is not among the provided sources of
`cache.rs`. Per the spec (section 4.2), after an admitted call fails it
"sets the bucket's last-attempt timestamp such that the effective
next-eligible time is now + overrideCooldown rather than the normal
minInterval, by backdating or forward-dating the stored timestamp
accordingly": the stored timestamp is `now + override - minInterval`. -/
def ProxyCache.mark_failed_attempt (c : ProxyCache)
    (rooftop_id endpoint : String) (min_interval override_cooldown : Nat)
    (monoNow : Int) : ProxyCache :=
  let ts : Int := monoNow + (override_cooldown : Int) - (min_interval : Int)
  let m := insertA c.last_attempt (cache_key rooftop_id endpoint) ts
  { c with last_attempt := m }

/-- Store a response in the in-memory cache (`ProxyCache::set`, before
its persistence side effect): replace the entry wholesale, stamping the
fetch time to the current wall clock. -/
def ProxyCache.set (c : ProxyCache) (rooftop_id endpoint : String)
    (body content_type : String) (wallNow : Int) : ProxyCache :=
  let e : CacheEntry :=
    { body := body, content_type := content_type, fetched_at := wallNow }
  let m := insertA c.entries (cache_key rooftop_id endpoint) e
  { c with entries := m }

/-- Number of cached entries (`ProxyCache::entry_count`). -/
def ProxyCache.entry_count (c : ProxyCache) : Nat :=
  c.entries.length

/-! The request orchestrator of `proxy.rs`, as a pure state-passing
function parameterised by an upstream oracle. -/

/-- Classified outcome of a single upstream call, combining
`UpstreamResult` of `proxy.rs` with the transport-error case of
`Result<UpstreamResult, reqwest::Error>`. -/
inductive FetchOutcome where
  | success (body content_type : String)
  | rateLimited
  | error (status : Nat) (body : String)
  | transportErr (msg : String)
  deriving Repr, DecidableEq

/-- An upstream call as issued by `fetch_upstream`: which site, which
endpoint, which bearer credential, which query parameters. -/
structure UpstreamCall where
  site_id : String
  endpoint : String
  api_key : String
  params : List (String × String)
  deriving Repr, DecidableEq

/-- Fallback credentials from `X-Fallback-Api-Key` / `X-Fallback-Site-Id`
(`FallbackCredentials` in `proxy.rs`). -/
structure FallbackCredentials where
  api_key : String
  site_id : String
  deriving Repr, DecidableEq

/-- The parts of an inbound request the handler consumes: path
parameters, query parameters, and the four headers it reads. -/
structure Request where
  rooftop_id : String
  endpoint : String
  params : List (String × String)
  cache_control : Option String
  authorization : Option String
  fallback_api_key : Option String
  fallback_site_id : Option String
  deriving Repr, DecidableEq

/-- The configuration the handler reads from `AppState` in `main.rs`:
TTL seconds and minimum seconds between upstream calls per bucket. -/
structure AppState where
  ttl : Nat
  rate_limit : Nat
  deriving Repr, DecidableEq

/-- A client-visible response: status code, the headers the handler
explicitly attaches, and the body. -/
structure Response where
  status : Nat
  headers : List (String × String)
  body : String
  deriving Repr, DecidableEq

/-- Substring occurrence test on character lists. -/
def containsSubAux (pat : List Char) : List Char → Bool
  | [] => pat.isEmpty
  | c :: t => pat.isPrefixOf (c :: t) || containsSubAux pat t

/-- Substring occurrence test, modelling Rust `str::contains`. -/
def containsSubstring (s pat : String) : Bool :=
  containsSubAux pat.toList s.toList

/-- Cache-Control force-refresh detection (`proxy.rs` line 146): the
header is present and contains "no-cache". -/
def force_refresh (req : Request) : Bool :=
  match req.cache_control with
  | some v => containsSubstring v "no-cache"
  | none => false

/-- Bearer credential extraction (`proxy.rs` line 190): strip the
"Bearer " front (7 characters) of the Authorization header, defaulting
to "". The check and the drop are performed on the character list. -/
def extractApiKey (req : Request) : String :=
  match req.authorization with
  | some v =>
      if "Bearer ".toList.isPrefixOf v.toList then
        String.mk (v.toList.drop 7)
      else ""
  | none => ""

/-- Fallback credential extraction (`extract_fallback` in `proxy.rs`):
both headers must be present. -/
def extract_fallback (req : Request) : Option FallbackCredentials :=
  match req.fallback_api_key, req.fallback_site_id with
  | some k, some s => some { api_key := k, site_id := s }
  | _, _ => none

/-- Cache-key endpoint component including query parameters
(`proxy.rs` lines 138-143). -/
def cacheEndpointOf (endpoint : String) (params : List (String × String)) :
    String :=
  if params.isEmpty then endpoint
  else
    endpoint ++ "?" ++
      String.intercalate "&" (params.map (fun p => p.1 ++ "=" ++ p.2))

/-- A 200 response carrying the served body with the `X-Cache`
provenance tag and `X-Cache-Age` (`cached_response` in `proxy.rs`). -/
def cached_response (body content_type cache_status : String) (age : Int) :
    Response :=
  { status := 200,
    headers := [("Content-Type", content_type), ("X-Cache", cache_status),
      ("X-Cache-Age", toString age)],
    body := body }

/-- Result of a handler run: the response, the new cache state, and the
trace of upstream calls actually issued. -/
abbrev HandlerResult := Response × ProxyCache × List UpstreamCall

/-- Fallback attempt (`try_fallback` in `proxy.rs`): admission and
marking use the namespaced bucket `fallback:<site-id>`; a success is
cached under the original rooftop id and tagged FALLBACK; any failure
applies the corresponding cool-down to the fallback bucket and yields
none. -/
def try_fallback (st : AppState) (c : ProxyCache)
    (fetchResult : UpstreamCall → FetchOutcome) (fb : FallbackCredentials)
    (rooftop_id endpoint cache_endpoint : String)
    (params : List (String × String)) (wallNow monoNow : Int) :
    Option Response × ProxyCache × List UpstreamCall :=
  let fb_rate_key := "fallback:" ++ fb.site_id
  if c.can_fetch fb_rate_key cache_endpoint st.rate_limit monoNow = false then
    (none, c, [])
  else
    let c1 := c.mark_attempt fb_rate_key cache_endpoint monoNow
    let call : UpstreamCall :=
      { site_id := fb.site_id, endpoint := endpoint, api_key := fb.api_key,
        params := params }
    match fetchResult call with
    | .success body content_type =>
        let c2 := c1.set rooftop_id cache_endpoint body content_type wallNow
        (some (cached_response body content_type "FALLBACK" 0), c2, [call])
    | .rateLimited =>
        (none,
          c1.mark_failed_attempt fb_rate_key cache_endpoint st.rate_limit
            3600 monoNow, [call])
    | .error _ _ =>
        (none,
          c1.mark_failed_attempt fb_rate_key cache_endpoint st.rate_limit
            60 monoNow, [call])
    | .transportErr _ =>
        (none,
          c1.mark_failed_attempt fb_rate_key cache_endpoint st.rate_limit
            60 monoNow, [call])

/-- Stale-or-429 tail of the admission-denied branch (`proxy.rs`
lines 176-187): serve STALE when an entry exists, else 429 with the
Retry-After hint. -/
def staleOr429Admission (c : ProxyCache) (rooftop_id cache_endpoint : String)
    (wallNow : Int) (calls : List UpstreamCall) : HandlerResult :=
  match c.get rooftop_id cache_endpoint wallNow with
  | some (entry, age) =>
      (cached_response entry.body entry.content_type "STALE" age, c, calls)
  | none =>
      ({ status := 429, headers := [("Retry-After", "9000")],
         body := "Rate limited and no cached data available" }, c, calls)

/-- Admission-denied branch (`proxy.rs` lines 166-187): try fallback
first when credentials are present; on fallback success additionally
apply the long cool-down to the primary bucket; else stale-or-429. -/
def admission_denied (st : AppState) (c : ProxyCache)
    (fetchResult : UpstreamCall → FetchOutcome)
    (fb : Option FallbackCredentials)
    (rooftop_id endpoint cache_endpoint : String)
    (params : List (String × String)) (wallNow monoNow : Int) :
    HandlerResult :=
  match fb with
  | some creds =>
      match try_fallback st c fetchResult creds rooftop_id endpoint
          cache_endpoint params wallNow monoNow with
      | (some resp, c', calls) =>
          (resp,
            c'.mark_failed_attempt rooftop_id cache_endpoint st.rate_limit
              3600 monoNow, calls)
      | (none, c', calls) =>
          staleOr429Admission c' rooftop_id cache_endpoint wallNow calls
  | none => staleOr429Admission c rooftop_id cache_endpoint wallNow []

/-- Tail of the upstream-429 branch (`proxy.rs` lines 218-223): apply
the long cool-down to the primary bucket, then STALE when an entry
exists, else a plain 429 "Upstream rate limited". -/
def rateLimitedFallthrough (st : AppState) (c : ProxyCache)
    (rooftop_id cache_endpoint : String) (wallNow monoNow : Int)
    (calls : List UpstreamCall) : HandlerResult :=
  let c' := c.mark_failed_attempt rooftop_id cache_endpoint st.rate_limit
    3600 monoNow
  match c'.get rooftop_id cache_endpoint wallNow with
  | some (entry, age) =>
      (cached_response entry.body entry.content_type "STALE" age, c', calls)
  | none =>
      ({ status := 429, headers := [], body := "Upstream rate limited" },
        c', calls)

/-- Dispatch on the primary upstream outcome (`proxy.rs` lines
200-243). -/
def primary_outcome (st : AppState) (c1 : ProxyCache)
    (fetchResult : UpstreamCall → FetchOutcome)
    (fb : Option FallbackCredentials)
    (rooftop_id endpoint cache_endpoint : String)
    (params : List (String × String)) (call : UpstreamCall)
    (wallNow monoNow : Int) : HandlerResult :=
  match fetchResult call with
  | .success body content_type =>
      let c2 := c1.set rooftop_id cache_endpoint body content_type wallNow
      (cached_response body content_type "MISS" 0, c2, [call])
  | .rateLimited =>
      match fb with
      | some creds =>
          match try_fallback st c1 fetchResult creds rooftop_id endpoint
              cache_endpoint params wallNow monoNow with
          | (some resp, c2, fbCalls) =>
              (resp,
                c2.mark_failed_attempt rooftop_id cache_endpoint
                  st.rate_limit 3600 monoNow, call :: fbCalls)
          | (none, c2, fbCalls) =>
              rateLimitedFallthrough st c2 rooftop_id cache_endpoint wallNow
                monoNow (call :: fbCalls)
      | none =>
          rateLimitedFallthrough st c1 rooftop_id cache_endpoint wallNow
            monoNow [call]
  | .error status body =>
      let c2 := c1.mark_failed_attempt rooftop_id cache_endpoint
        st.rate_limit 60 monoNow
      match c2.get rooftop_id cache_endpoint wallNow with
      | some (entry, age) =>
          (cached_response entry.body entry.content_type "STALE" age, c2,
            [call])
      | none => ({ status := status, headers := [], body := body }, c2, [call])
  | .transportErr msg =>
      let c2 := c1.mark_failed_attempt rooftop_id cache_endpoint
        st.rate_limit 60 monoNow
      match c2.get rooftop_id cache_endpoint wallNow with
      | some (entry, age) =>
          (cached_response entry.body entry.content_type "STALE" age, c2,
            [call])
      | none =>
          ({ status := 502, headers := [],
             body := "Upstream fetch failed: " ++ msg }, c2, [call])

/-- Steps of `proxy_handler` after the freshness check (`proxy.rs`
lines 163-243): admission check on the primary bucket (skipped when
force-refreshing), then mark the attempt and call upstream. -/
def proxy_after_fresh (st : AppState) (c : ProxyCache)
    (fetchResult : UpstreamCall → FetchOutcome) (req : Request)
    (cache_endpoint : String) (fr : Bool) (wallNow monoNow : Int) :
    HandlerResult :=
  let fb := extract_fallback req
  if fr = false ∧
      c.can_fetch req.rooftop_id cache_endpoint st.rate_limit monoNow
        = false then
    admission_denied st c fetchResult fb req.rooftop_id req.endpoint
      cache_endpoint req.params wallNow monoNow
  else
    let api_key := extractApiKey req
    let c1 := c.mark_attempt req.rooftop_id cache_endpoint monoNow
    let call : UpstreamCall :=
      { site_id := req.rooftop_id, endpoint := req.endpoint,
        api_key := api_key, params := req.params }
    primary_outcome st c1 fetchResult fb req.rooftop_id req.endpoint
      cache_endpoint req.params call wallNow monoNow

/-- The request orchestrator (`proxy_handler` in `proxy.rs`): endpoint
validation, cache-key construction, freshness check (skipped on force
refresh), then admission and upstream dispatch. -/
def proxy_handler (st : AppState) (c : ProxyCache)
    (fetchResult : UpstreamCall → FetchOutcome) (req : Request)
    (wallNow monoNow : Int) : HandlerResult :=
  if req.endpoint ≠ "forecasts" ∧ req.endpoint ≠ "estimated_actuals" then
    ({ status := 404, headers := [], body := "Unknown endpoint" }, c, [])
  else
    let cache_endpoint := cacheEndpointOf req.endpoint req.params
    let fr := force_refresh req
    if fr = false ∧
        c.is_fresh req.rooftop_id cache_endpoint st.ttl wallNow = true then
      match c.get req.rooftop_id cache_endpoint wallNow with
      | some (entry, age) =>
          (cached_response entry.body entry.content_type "HIT" age, c, [])
      | none =>
          proxy_after_fresh st c fetchResult req cache_endpoint fr wallNow
            monoNow
    else
      proxy_after_fresh st c fetchResult req cache_endpoint fr wallNow monoNow

/-! Disk persistence (`save_to_disk` / `load_from_disk` in `cache.rs`),
modelled at the level of a JSON value tree: `serde_json` serialization
of `DiskCache` is an object with a single field "entries" holding the
key-to-entry mapping; reading or parsing may fail, which `new` treats
as an empty store. -/

/-- JSON values, as far as the `DiskCache` serialization needs them. -/
inductive Json where
  | str (s : String)
  | num (n : Int)
  | obj (fields : List (String × Json))
  deriving Repr

/-- Serde serialization of one `CacheEntry`. -/
def encodeEntry (e : CacheEntry) : Json :=
  .obj [("body", .str e.body), ("content_type", .str e.content_type),
    ("fetched_at", .num e.fetched_at)]

/-- Serde deserialization of one `CacheEntry`. -/
def decodeEntry : Json → Option CacheEntry
  | .obj [("body", .str b), ("content_type", .str ct),
      ("fetched_at", .num t)] =>
      some { body := b, content_type := ct, fetched_at := t }
  | _ => none

/-- Deserialize the fields of the entries map one by one. -/
def decodeFields : List (String × Json) → Option (List (String × CacheEntry))
  | [] => some []
  | (k, j) :: t =>
      match decodeEntry j, decodeFields t with
      | some e, some rest => some ((k, e) :: rest)
      | _, _ => none

/-- Serde deserialization of the entries map. -/
def decodeEntries : Json → Option (List (String × CacheEntry))
  | .obj fields => decodeFields fields
  | _ => none

/-- Serde serialization of the entries map. -/
def encodeEntries (m : List (String × CacheEntry)) : Json :=
  .obj (m.map fun p => (p.1, encodeEntry p.2))

/-- Snapshot written by `ProxyCache::save_to_disk`: the serialization of
`DiskCache` holding the complete entries map. -/
def save_to_disk (m : List (String × CacheEntry)) : Json :=
  .obj [("entries", encodeEntries m)]

/-- Snapshot read by `ProxyCache::load_from_disk`: `none` input models a
missing/unreadable file; a parse failure yields `none`. -/
def load_from_disk : Option Json → Option (List (String × CacheEntry))
  | some (.obj [("entries", j)]) => decodeEntries j
  | _ => none

/-- Startup (`ProxyCache::new`): load the snapshot if possible, treating
any failure as an empty store; the attempt map always starts empty. -/
def ProxyCache.new (disk : Option Json) : ProxyCache :=
  { entries := (load_from_disk disk).getD [], last_attempt := [] }

/-- Full `ProxyCache::set` including its persistence side effect: the
in-memory insert always happens, then the full-store snapshot is
written; when the write fails (`writeOk = false`) the error is only
logged and the previous disk content remains. -/
def set_persist (c : ProxyCache) (rooftop_id endpoint body content_type :
    String) (wallNow : Int) (writeOk : Bool) (disk : Option Json) :
    ProxyCache × Option Json :=
  let c' := c.set rooftop_id endpoint body content_type wallNow
  (c', if writeOk then some (save_to_disk c'.entries) else disk)

/-- The empty store. -/
def emptyCache : ProxyCache :=
  { entries := [], last_attempt := [] }

/-- Replay a sequence of `set` operations (key parts, body, content
type, wall time) against a store. -/
def applySets (c : ProxyCache)
    (ops : List (String × String × String × String × Int)) : ProxyCache :=
  ops.foldl
    (fun acc op => acc.set op.1 op.2.1 op.2.2.1 op.2.2.2.1 op.2.2.2.2) c

/-! Structural lemmas about the cache operations. -/

@[simp] theorem mark_attempt_entries (c : ProxyCache) (r e : String)
    (m : Int) : (c.mark_attempt r e m).entries = c.entries := rfl

@[simp] theorem mark_attempt_last (c : ProxyCache) (r e : String) (m : Int) :
    (c.mark_attempt r e m).last_attempt =
      insertA c.last_attempt (cache_key r e) m := rfl

@[simp] theorem mark_failed_attempt_entries (c : ProxyCache) (r e : String)
    (mi ov : Nat) (m : Int) :
    (c.mark_failed_attempt r e mi ov m).entries = c.entries := rfl

@[simp] theorem mark_failed_attempt_last (c : ProxyCache) (r e : String)
    (mi ov : Nat) (m : Int) :
    (c.mark_failed_attempt r e mi ov m).last_attempt =
      insertA c.last_attempt (cache_key r e) (m + (ov : Int) - (mi : Int)) :=
  rfl

@[simp] theorem set_entries (c : ProxyCache) (r e b ct : String) (w : Int) :
    (c.set r e b ct w).entries =
      insertA c.entries (cache_key r e)
        { body := b, content_type := ct, fetched_at := w } := rfl

@[simp] theorem set_last (c : ProxyCache) (r e b ct : String) (w : Int) :
    (c.set r e b ct w).last_attempt = c.last_attempt := rfl

theorem get_of_lookup (c : ProxyCache) (r e : String) (w : Int)
    (en : CacheEntry) (h : lookupA c.entries (cache_key r e) = some en) :
    c.get r e w = some (en, w - en.fetched_at) := by
  simp [ProxyCache.get, h]

theorem get_of_none (c : ProxyCache) (r e : String) (w : Int)
    (h : lookupA c.entries (cache_key r e) = none) : c.get r e w = none := by
  simp [ProxyCache.get, h]

theorem is_fresh_of_none (c : ProxyCache) (r e : String) (ttl : Nat)
    (w : Int) (h : lookupA c.entries (cache_key r e) = none) :
    c.is_fresh r e ttl w = false := by
  simp [ProxyCache.is_fresh, h]

theorem is_fresh_iff (c : ProxyCache) (rooftop_id endpoint : String)
    (ttl : Nat) (wallNow : Int) :
    c.is_fresh rooftop_id endpoint ttl wallNow = true ↔
      ∃ e, lookupA c.entries (cache_key rooftop_id endpoint) = some e ∧
        0 ≤ wallNow - e.fetched_at ∧ wallNow - e.fetched_at < (ttl : Int) := by
  unfold ProxyCache.is_fresh
  cases h : lookupA c.entries (cache_key rooftop_id endpoint) with
  | none => simp
  | some e =>
    simp only [Bool.and_eq_true, decide_eq_true_eq, Option.some.injEq]
    constructor
    · rintro ⟨h0, hlt⟩
      exact ⟨e, rfl, h0, by omega⟩
    · rintro ⟨e', he', h0, hlt⟩
      subst he'
      exact ⟨h0, by omega⟩

theorem can_fetch_zero_interval (c : ProxyCache) (r e : String) (m : Int) :
    c.can_fetch r e 0 m = true := by
  unfold ProxyCache.can_fetch
  cases lookupA c.last_attempt (cache_key r e) with
  | none => rfl
  | some last => exact decide_eq_true (Nat.zero_le _)

/-! Routing lemmas through the handler. -/

theorem proxy_handler_invalid (st : AppState) (c : ProxyCache)
    (fetchResult : UpstreamCall → FetchOutcome) (req : Request)
    (wallNow monoNow : Int) (h1 : req.endpoint ≠ "forecasts")
    (h2 : req.endpoint ≠ "estimated_actuals") :
    proxy_handler st c fetchResult req wallNow monoNow =
      ({ status := 404, headers := [], body := "Unknown endpoint" }, c, []) := by
  rw [proxy_handler, if_pos ⟨h1, h2⟩]

theorem proxy_handler_hit (st : AppState) (c : ProxyCache)
    (fetchResult : UpstreamCall → FetchOutcome) (req : Request)
    (wallNow monoNow : Int)
    (hvalid : req.endpoint = "forecasts" ∨ req.endpoint = "estimated_actuals")
    (hfr : force_refresh req = false)
    (hfresh : c.is_fresh req.rooftop_id
      (cacheEndpointOf req.endpoint req.params) st.ttl wallNow = true)
    (en : CacheEntry)
    (hen : lookupA c.entries
      (cache_key req.rooftop_id (cacheEndpointOf req.endpoint req.params)) =
        some en) :
    proxy_handler st c fetchResult req wallNow monoNow =
      (cached_response en.body en.content_type "HIT" (wallNow - en.fetched_at),
        c, []) := by
  have hnv : ¬(req.endpoint ≠ "forecasts" ∧
      req.endpoint ≠ "estimated_actuals") := by
    rcases hvalid with h | h <;> simp [h]
  rw [proxy_handler, if_neg hnv]
  dsimp only
  rw [hfr, hfresh, if_pos ⟨rfl, rfl⟩,
    get_of_lookup c req.rooftop_id (cacheEndpointOf req.endpoint req.params)
      wallNow en hen]

theorem proxy_handler_force (st : AppState) (c : ProxyCache)
    (fetchResult : UpstreamCall → FetchOutcome) (req : Request)
    (wallNow monoNow : Int)
    (hvalid : req.endpoint = "forecasts" ∨ req.endpoint = "estimated_actuals")
    (hfr : force_refresh req = true) :
    proxy_handler st c fetchResult req wallNow monoNow =
      proxy_after_fresh st c fetchResult req
        (cacheEndpointOf req.endpoint req.params) true wallNow monoNow := by
  have hnv : ¬(req.endpoint ≠ "forecasts" ∧
      req.endpoint ≠ "estimated_actuals") := by
    rcases hvalid with h | h <;> simp [h]
  rw [proxy_handler, if_neg hnv]
  dsimp only
  rw [hfr, if_neg (by simp)]

theorem proxy_handler_not_fresh (st : AppState) (c : ProxyCache)
    (fetchResult : UpstreamCall → FetchOutcome) (req : Request)
    (wallNow monoNow : Int)
    (hvalid : req.endpoint = "forecasts" ∨ req.endpoint = "estimated_actuals")
    (hfr : force_refresh req = false)
    (hnf : c.is_fresh req.rooftop_id
      (cacheEndpointOf req.endpoint req.params) st.ttl wallNow = false) :
    proxy_handler st c fetchResult req wallNow monoNow =
      proxy_after_fresh st c fetchResult req
        (cacheEndpointOf req.endpoint req.params) false wallNow monoNow := by
  have hnv : ¬(req.endpoint ≠ "forecasts" ∧
      req.endpoint ≠ "estimated_actuals") := by
    rcases hvalid with h | h <;> simp [h]
  rw [proxy_handler, if_neg hnv]
  dsimp only
  rw [hfr, hnf, if_neg (by simp)]

theorem proxy_after_fresh_denied (st : AppState) (c : ProxyCache)
    (fetchResult : UpstreamCall → FetchOutcome) (req : Request)
    (cache_endpoint : String) (wallNow monoNow : Int)
    (hcf : c.can_fetch req.rooftop_id cache_endpoint st.rate_limit monoNow
      = false) :
    proxy_after_fresh st c fetchResult req cache_endpoint false wallNow
        monoNow =
      admission_denied st c fetchResult (extract_fallback req) req.rooftop_id
        req.endpoint cache_endpoint req.params wallNow monoNow := by
  rw [proxy_after_fresh]
  dsimp only
  rw [hcf, if_pos ⟨rfl, rfl⟩]

theorem proxy_after_fresh_go (st : AppState) (c : ProxyCache)
    (fetchResult : UpstreamCall → FetchOutcome) (req : Request)
    (cache_endpoint : String) (fr : Bool) (wallNow monoNow : Int)
    (h : fr = true ∨
      c.can_fetch req.rooftop_id cache_endpoint st.rate_limit monoNow = true) :
    proxy_after_fresh st c fetchResult req cache_endpoint fr wallNow monoNow =
      primary_outcome st (c.mark_attempt req.rooftop_id cache_endpoint monoNow)
        fetchResult (extract_fallback req) req.rooftop_id req.endpoint
        cache_endpoint req.params
        { site_id := req.rooftop_id, endpoint := req.endpoint,
          api_key := extractApiKey req, params := req.params }
        wallNow monoNow := by
  have hn : ¬(fr = false ∧
      c.can_fetch req.rooftop_id cache_endpoint st.rate_limit monoNow
        = false) := by
    rcases h with h | h <;> simp [h]
  rw [proxy_after_fresh]
  dsimp only
  rw [if_neg hn]

/-! Round-trip lemmas for the disk snapshot. -/

theorem decodeEntry_encodeEntry (e : CacheEntry) :
    decodeEntry (encodeEntry e) = some e := rfl

theorem decodeFields_encode (m : List (String × CacheEntry)) :
    decodeFields (m.map fun p => (p.1, encodeEntry p.2)) = some m := by
  induction m with
  | nil => rfl
  | cons p t ih =>
    obtain ⟨k, e⟩ := p
    simp only [List.map_cons, decodeFields, decodeEntry_encodeEntry, ih]

theorem load_from_disk_save (m : List (String × CacheEntry)) :
    load_from_disk (some (save_to_disk m)) = some m := by
  simp only [save_to_disk, load_from_disk, encodeEntries, decodeEntries,
    decodeFields_encode]

/-- C4: `is_fresh(key, ttl)` returns true if and only if an entry exists
for the key and its age `now - fetched_at` satisfies `0 ≤ age < ttl`; in
particular it is false at the exact instant `age = ttl` (exclusive
boundary) and false when the age is negative (clock skew). -/
theorem is_fresh_iff_age_window (c : ProxyCache) (rooftop_id endpoint :
    String) (ttl : Nat) (wallNow : Int) :
    c.is_fresh rooftop_id endpoint ttl wallNow = true ↔
      ∃ e, lookupA c.entries (cache_key rooftop_id endpoint) = some e ∧
        0 ≤ wallNow - e.fetched_at ∧ wallNow - e.fetched_at < (ttl : Int) :=
  is_fresh_iff c rooftop_id endpoint ttl wallNow

/-- C5: `can_fetch(bucket, minInterval)` is true if and only if no
attempt record exists for the bucket or the elapsed monotonic time since
the last attempt is at least `minInterval`; it is true before any
attempt, false immediately after `mark_attempt` when the interval is
positive, and true immediately when the interval is 0. -/
theorem can_fetch_spec (c : ProxyCache) (rooftop_id endpoint : String)
    (rate_limit : Nat) (monoNow : Int) :
    (c.can_fetch rooftop_id endpoint rate_limit monoNow = true ↔
      lookupA c.last_attempt (cache_key rooftop_id endpoint) = none ∨
      ∃ last, lookupA c.last_attempt (cache_key rooftop_id endpoint) =
          some last ∧ rate_limit ≤ (monoNow - last).toNat) ∧
    emptyCache.can_fetch rooftop_id endpoint rate_limit monoNow = true ∧
    (0 < rate_limit →
      (c.mark_attempt rooftop_id endpoint monoNow).can_fetch rooftop_id
        endpoint rate_limit monoNow = false) ∧
    (c.mark_attempt rooftop_id endpoint monoNow).can_fetch rooftop_id
      endpoint 0 monoNow = true := by
  refine ⟨?_, ?_, ?_, ?_⟩
  · unfold ProxyCache.can_fetch
    cases h : lookupA c.last_attempt (cache_key rooftop_id endpoint) with
    | none => simp
    | some last =>
      simp only [decide_eq_true_eq, Option.some.injEq]
      constructor
      · intro hle
        exact Or.inr ⟨last, rfl, hle⟩
      · rintro (h' | ⟨l', hl', hle⟩)
        · exact absurd h' (by simp)
        · subst hl'
          exact hle
  · simp [ProxyCache.can_fetch, emptyCache, lookupA]
  · intro hpos
    unfold ProxyCache.can_fetch
    rw [mark_attempt_last, lookupA_insertA, if_pos rfl]
    exact decide_eq_false (by omega)
  · unfold ProxyCache.can_fetch
    rw [mark_attempt_last, lookupA_insertA, if_pos rfl]
    exact decide_eq_true (Nat.zero_le _)

/-- Witness for `can_fetch_spec`: at a positive interval the bucket is
rate-limited immediately after `mark_attempt`. -/
theorem can_fetch_spec_witness :
    0 < 9000 ∧
    (emptyCache.mark_attempt "site1" "forecasts" 0).can_fetch "site1"
      "forecasts" 9000 0 = false :=
  ⟨by decide, (can_fetch_spec emptyCache "site1" "forecasts" 9000 0).2.2.1
    (by decide)⟩

/-- C2 (amended): for a positive `minInterval`, after
`mark_failed_attempt(bucket, minInterval, override)` at monotonic time
`now`, `can_fetch(bucket, minInterval)` at any later time `t` is true
exactly when `override` seconds have elapsed, i.e. `override ≤ t - now`;
the stored timestamp is ordinary afterwards, so only this eligibility
window is affected. At `minInterval = 0` the property fails (see the
counterexample): `can_fetch` is true immediately whatever the stored
timestamp. -/
theorem mark_failed_attempt_override_window (c : ProxyCache)
    (rooftop_id endpoint : String) (min_interval override_cooldown : Nat)
    (monoNow t : Int) (hpos : 0 < min_interval) (_ht : monoNow ≤ t) :
    (c.mark_failed_attempt rooftop_id endpoint min_interval
        override_cooldown monoNow).can_fetch rooftop_id endpoint
        min_interval t =
      decide ((override_cooldown : Int) ≤ t - monoNow) := by
  unfold ProxyCache.can_fetch
  rw [mark_failed_attempt_last, lookupA_insertA, if_pos rfl]
  exact decide_eq_decide.mpr (by omega)

/-- Witness for `mark_failed_attempt_override_window` at interval 2,
override 5, 3 seconds elapsed: still rate limited. -/
theorem mark_failed_attempt_override_window_witness :
    0 < 2 ∧ (0 : Int) ≤ 3 ∧
    (emptyCache.mark_failed_attempt "b" "ep" 2 5 0).can_fetch "b" "ep" 2 3 =
      decide ((5 : Int) ≤ 3 - 0) :=
  ⟨by decide, by decide,
    mark_failed_attempt_override_window emptyCache "b" "ep" 2 5 0 3
      (by decide) (by decide)⟩

/-- C2 counterexample: with `minInterval = 0` and `override = 3600`,
immediately after `mark_failed_attempt` (zero seconds elapsed, far less
than the override) `can_fetch` already returns true, contradicting the
claim that it is false until the override has elapsed regardless of the
interval's own value. -/
theorem mark_failed_attempt_zero_interval_cex :
    (emptyCache.mark_failed_attempt "site1" "forecasts" 0 3600 0).can_fetch
      "site1" "forecasts" 0 0 = true := by
  decide

/-- C7: replaying any sequence of `set` operations, writing the snapshot
and loading it in a fresh store restores the entries map exactly: every
key maps to an entry with identical body, content type and fetch
timestamp (and the fresh store's attempt map is empty). -/
theorem snapshot_roundtrip
    (ops : List (String × String × String × String × Int)) :
    (ProxyCache.new (some (save_to_disk
        (applySets emptyCache ops).entries))).entries =
      (applySets emptyCache ops).entries ∧
    ∀ k, lookupA (ProxyCache.new (some (save_to_disk
        (applySets emptyCache ops).entries))).entries k =
      lookupA (applySets emptyCache ops).entries k := by
  refine ⟨?_, fun k => ?_⟩ <;>
    simp [ProxyCache.new, load_from_disk_save]

/-- C8: persistence failures are invisible to clients: a missing or
unparsable snapshot yields an empty store at startup, and a failed
snapshot write during `set` is swallowed — the in-memory entry is in
place and the previous disk content is untouched. -/
theorem persistence_failures_invisible :
    (ProxyCache.new none).entries = [] ∧
    (∀ j, load_from_disk (some j) = none →
      (ProxyCache.new (some j)).entries = []) ∧
    (∀ (c : ProxyCache) (r e b ct : String) (w : Int) (writeOk : Bool)
        (disk : Option Json),
      (set_persist c r e b ct w writeOk disk).1 = c.set r e b ct w ∧
      lookupA (set_persist c r e b ct w writeOk disk).1.entries
          (cache_key r e) =
        some { body := b, content_type := ct, fetched_at := w } ∧
      (writeOk = false → (set_persist c r e b ct w writeOk disk).2 = disk)) := by
  refine ⟨rfl, ?_, ?_⟩
  · intro j h
    simp [ProxyCache.new, h]
  · intro c r e b ct w writeOk disk
    refine ⟨rfl, ?_, ?_⟩
    · simp [set_persist, ProxyCache.set, lookupA_insertA]
    · intro hw
      simp [set_persist, hw]

/-- Witness for `persistence_failures_invisible`: a snapshot that fails
to parse gives an empty store, and a failed write leaves the disk as it
was. -/
theorem persistence_failures_invisible_witness :
    (ProxyCache.new (some (Json.num 0))).entries = [] ∧
    (set_persist emptyCache "s" "f" "b" "ct" 0 false none).2 = none :=
  ⟨persistence_failures_invisible.2.1 (Json.num 0) rfl,
    (persistence_failures_invisible.2.2 emptyCache "s" "f" "b" "ct" 0 false
      none).2.2 rfl⟩

/-! Trace lemmas: which upstream calls a handler run issues. -/

theorem rateLimitedFallthrough_calls (st : AppState) (c : ProxyCache)
    (rooftop_id cache_endpoint : String) (wallNow monoNow : Int)
    (calls : List UpstreamCall) :
    (rateLimitedFallthrough st c rooftop_id cache_endpoint wallNow monoNow
      calls).2.2 = calls := by
  unfold rateLimitedFallthrough
  dsimp only
  cases (c.mark_failed_attempt rooftop_id cache_endpoint st.rate_limit 3600
      monoNow).get rooftop_id cache_endpoint wallNow with
  | none => rfl
  | some p => rfl

theorem primary_outcome_calls_head (st : AppState) (c1 : ProxyCache)
    (fetchResult : UpstreamCall → FetchOutcome)
    (fb : Option FallbackCredentials)
    (rooftop_id endpoint cache_endpoint : String)
    (params : List (String × String)) (call : UpstreamCall)
    (wallNow monoNow : Int) :
    (primary_outcome st c1 fetchResult fb rooftop_id endpoint cache_endpoint
      params call wallNow monoNow).2.2.head? = some call := by
  unfold primary_outcome
  cases hf : fetchResult call with
  | success b ct => rfl
  | rateLimited =>
    cases fb with
    | none =>
      rw [rateLimitedFallthrough_calls]
      rfl
    | some creds =>
      dsimp only
      rcases htf : try_fallback st c1 fetchResult creds rooftop_id endpoint
          cache_endpoint params wallNow monoNow with ⟨o, c2, fbCalls⟩
      cases o with
      | some resp => rfl
      | none =>
        rw [rateLimitedFallthrough_calls]
        rfl
  | error s b =>
    dsimp only
    cases (c1.mark_failed_attempt rooftop_id cache_endpoint st.rate_limit 60
        monoNow).get rooftop_id cache_endpoint wallNow with
    | none => rfl
    | some p => rfl
  | transportErr m =>
    dsimp only
    cases (c1.mark_failed_attempt rooftop_id cache_endpoint st.rate_limit 60
        monoNow).get rooftop_id cache_endpoint wallNow with
    | none => rfl
    | some p => rfl

theorem primary_outcome_calls_nofb (st : AppState) (c1 : ProxyCache)
    (fetchResult : UpstreamCall → FetchOutcome)
    (rooftop_id endpoint cache_endpoint : String)
    (params : List (String × String)) (call : UpstreamCall)
    (wallNow monoNow : Int) :
    (primary_outcome st c1 fetchResult none rooftop_id endpoint cache_endpoint
      params call wallNow monoNow).2.2 = [call] := by
  unfold primary_outcome
  cases hf : fetchResult call with
  | success b ct => rfl
  | rateLimited =>
    rw [rateLimitedFallthrough_calls]
  | error s b =>
    dsimp only
    cases (c1.mark_failed_attempt rooftop_id cache_endpoint st.rate_limit 60
        monoNow).get rooftop_id cache_endpoint wallNow with
    | none => rfl
    | some p => rfl
  | transportErr m =>
    dsimp only
    cases (c1.mark_failed_attempt rooftop_id cache_endpoint st.rate_limit 60
        monoNow).get rooftop_id cache_endpoint wallNow with
    | none => rfl
    | some p => rfl

/-! Concrete fixtures used by counterexamples and witnesses. -/

/-- Default configuration of `main.rs`: ttl 7200 s, rate limit 9000 s. -/
def st0 : AppState := { ttl := 7200, rate_limit := 9000 }

/-- An upstream that always succeeds. -/
def oracleOk : UpstreamCall → FetchOutcome :=
  fun _ => .success "BODY" "application/json"

/-- An upstream that always reports 429. -/
def oracle429 : UpstreamCall → FetchOutcome :=
  fun _ => .rateLimited

/-- A force-refresh request (Cache-Control: no-cache), no credentials. -/
def reqForce : Request :=
  { rooftop_id := "site1", endpoint := "forecasts", params := [],
    cache_control := some "no-cache", authorization := none,
    fallback_api_key := none, fallback_site_id := none }

/-- A plain request with no special headers. -/
def reqPlain : Request :=
  { rooftop_id := "site1", endpoint := "forecasts", params := [],
    cache_control := none, authorization := none,
    fallback_api_key := none, fallback_site_id := none }

/-- A store whose primary bucket was attempted at monotonic time 0. -/
def cRecent : ProxyCache :=
  { entries := [], last_attempt := [(cache_key "site1" "forecasts", 0)] }

/-- C1 (amended): a force-refresh request for a known endpoint always
issues the primary upstream call — the freshness check and the
rate-limit admission check are both skipped, for every store state,
including ones whose primary bucket's last attempt is more recent than
the minimum interval. -/
theorem force_refresh_always_calls_upstream (st : AppState) (c : ProxyCache)
    (fetchResult : UpstreamCall → FetchOutcome) (req : Request)
    (wallNow monoNow : Int)
    (hvalid : req.endpoint = "forecasts" ∨ req.endpoint = "estimated_actuals")
    (hfr : force_refresh req = true) :
    (proxy_handler st c fetchResult req wallNow monoNow).2.2.head? =
      some { site_id := req.rooftop_id, endpoint := req.endpoint,
             api_key := extractApiKey req, params := req.params } := by
  rw [proxy_handler_force st c fetchResult req wallNow monoNow hvalid hfr,
    proxy_after_fresh_go st c fetchResult req _ true wallNow monoNow
      (Or.inl rfl),
    primary_outcome_calls_head]

/-- Witness for `force_refresh_always_calls_upstream`: the concrete
force-refresh request against the recently attempted bucket. -/
theorem force_refresh_always_calls_upstream_witness :
    (reqForce.endpoint = "forecasts" ∨
      reqForce.endpoint = "estimated_actuals") ∧
    force_refresh reqForce = true ∧
    (proxy_handler st0 cRecent oracleOk reqForce 100 100).2.2.head? =
      some { site_id := "site1", endpoint := "forecasts", api_key := "",
             params := [] } :=
  ⟨Or.inl rfl, by decide,
    force_refresh_always_calls_upstream st0 cRecent oracleOk reqForce 100 100
      (Or.inl rfl) (by decide)⟩

/-- C1 counterexample: the primary bucket's last attempt (monotonic
time 0) is far more recent than the 9000 s minimum interval at time 100,
yet the force-refresh request still triggers an upstream call — the code
comment says "no-cache bypasses both TTL and rate limit", contradicting
the claim that rate limiting is still enforced. -/
theorem force_refresh_rate_limited_call_cex :
    cRecent.can_fetch "site1" "forecasts" st0.rate_limit 100 = false ∧
    (proxy_handler st0 cRecent oracleOk reqForce 100 100).2.2 =
      [{ site_id := "site1", endpoint := "forecasts", api_key := "",
         params := [] }] := by
  decide

/-- The primary upstream call a request gives rise to (`proxy.rs`
lines 189-200): the request's own site and parameters with the bearer
credential taken from its Authorization header. -/
def primaryCall (req : Request) : UpstreamCall :=
  { site_id := req.rooftop_id, endpoint := req.endpoint,
    api_key := extractApiKey req, params := req.params }

/-- A request for an endpoint that is neither of the two known ones. -/
def reqBad : Request :=
  { rooftop_id := "site1", endpoint := "status", params := [],
    cache_control := none, authorization := none,
    fallback_api_key := none, fallback_site_id := none }

/-- C6 (amended): for a request with no cache-control and no fallback
headers and no cached entry, the client-visible error status is: 404
when the endpoint is unknown; 429 with a Retry-After hint when admission
is denied; a plain 429 without a retry hint when the upstream itself
rate-limits; the upstream's own status and body forwarded verbatim on an
upstream error; and 502 on a transport error. -/
theorem error_status_mapping (st : AppState) (c : ProxyCache)
    (fetchResult : UpstreamCall → FetchOutcome) (req : Request)
    (wallNow monoNow : Int) (s : Nat) (b msg : String)
    (hcc : req.cache_control = none)
    (hfk : req.fallback_api_key = none)
    (hfs : req.fallback_site_id = none)
    (hnone : lookupA c.entries (cache_key req.rooftop_id
      (cacheEndpointOf req.endpoint req.params)) = none) :
    (req.endpoint ≠ "forecasts" → req.endpoint ≠ "estimated_actuals" →
      (proxy_handler st c fetchResult req wallNow monoNow).1 =
        { status := 404, headers := [], body := "Unknown endpoint" }) ∧
    (req.endpoint = "forecasts" ∨ req.endpoint = "estimated_actuals" →
      (c.can_fetch req.rooftop_id (cacheEndpointOf req.endpoint req.params)
          st.rate_limit monoNow = false →
        (proxy_handler st c fetchResult req wallNow monoNow).1 =
          { status := 429, headers := [("Retry-After", "9000")],
            body := "Rate limited and no cached data available" }) ∧
      (c.can_fetch req.rooftop_id (cacheEndpointOf req.endpoint req.params)
          st.rate_limit monoNow = true →
        (fetchResult (primaryCall req) = .rateLimited →
          (proxy_handler st c fetchResult req wallNow monoNow).1 =
            { status := 429, headers := [],
              body := "Upstream rate limited" }) ∧
        (fetchResult (primaryCall req) = .error s b →
          (proxy_handler st c fetchResult req wallNow monoNow).1 =
            { status := s, headers := [], body := b }) ∧
        (fetchResult (primaryCall req) = .transportErr msg →
          (proxy_handler st c fetchResult req wallNow monoNow).1 =
            { status := 502, headers := [],
              body := "Upstream fetch failed: " ++ msg }))) := by
  have hfr : force_refresh req = false := by
    unfold force_refresh
    rw [hcc]
  have hfb : extract_fallback req = none := by
    unfold extract_fallback
    rw [hfk, hfs]
  have hnf : c.is_fresh req.rooftop_id
      (cacheEndpointOf req.endpoint req.params) st.ttl wallNow = false :=
    is_fresh_of_none _ _ _ _ _ hnone
  refine ⟨fun h1 h2 => ?_, fun hvalid =>
    ⟨fun hcf => ?_, fun hcf => ⟨fun hrl => ?_, fun herr => ?_, fun htr => ?_⟩⟩⟩
  · rw [proxy_handler_invalid st c fetchResult req wallNow monoNow h1 h2]
  · rw [proxy_handler_not_fresh st c fetchResult req wallNow monoNow hvalid
        hfr hnf,
      proxy_after_fresh_denied st c fetchResult req _ wallNow monoNow hcf,
      hfb]
    unfold admission_denied
    dsimp only
    unfold staleOr429Admission
    rw [get_of_none _ _ _ _ hnone]
  · rw [proxy_handler_not_fresh st c fetchResult req wallNow monoNow hvalid
        hfr hnf,
      proxy_after_fresh_go st c fetchResult req _ false wallNow monoNow
        (Or.inr hcf),
      hfb]
    unfold primaryCall at hrl
    unfold primary_outcome
    rw [hrl]
    dsimp only
    unfold rateLimitedFallthrough
    dsimp only
    have hg : ((c.mark_attempt req.rooftop_id
        (cacheEndpointOf req.endpoint req.params) monoNow).mark_failed_attempt
        req.rooftop_id (cacheEndpointOf req.endpoint req.params)
        st.rate_limit 3600 monoNow).get req.rooftop_id
        (cacheEndpointOf req.endpoint req.params) wallNow = none :=
      get_of_none _ _ _ _ hnone
    rw [hg]
  · rw [proxy_handler_not_fresh st c fetchResult req wallNow monoNow hvalid
        hfr hnf,
      proxy_after_fresh_go st c fetchResult req _ false wallNow monoNow
        (Or.inr hcf),
      hfb]
    unfold primaryCall at herr
    unfold primary_outcome
    rw [herr]
    dsimp only
    have hg : ((c.mark_attempt req.rooftop_id
        (cacheEndpointOf req.endpoint req.params) monoNow).mark_failed_attempt
        req.rooftop_id (cacheEndpointOf req.endpoint req.params)
        st.rate_limit 60 monoNow).get req.rooftop_id
        (cacheEndpointOf req.endpoint req.params) wallNow = none :=
      get_of_none _ _ _ _ hnone
    rw [hg]
  · rw [proxy_handler_not_fresh st c fetchResult req wallNow monoNow hvalid
        hfr hnf,
      proxy_after_fresh_go st c fetchResult req _ false wallNow monoNow
        (Or.inr hcf),
      hfb]
    unfold primaryCall at htr
    unfold primary_outcome
    rw [htr]
    dsimp only
    have hg : ((c.mark_attempt req.rooftop_id
        (cacheEndpointOf req.endpoint req.params) monoNow).mark_failed_attempt
        req.rooftop_id (cacheEndpointOf req.endpoint req.params)
        st.rate_limit 60 monoNow).get req.rooftop_id
        (cacheEndpointOf req.endpoint req.params) wallNow = none :=
      get_of_none _ _ _ _ hnone
    rw [hg]

/-- Witness for `error_status_mapping`: the unknown endpoint "status"
yields the 404 response. -/
theorem error_status_mapping_witness :
    (proxy_handler st0 emptyCache oracle429 reqBad 0 0).1 =
      { status := 404, headers := [], body := "Unknown endpoint" } :=
  (error_status_mapping st0 emptyCache oracle429 reqBad 0 0 500 "ERR" "boom"
    rfl rfl rfl rfl).1 (by decide) (by decide)

/-- C6 counterexample: an upstream-rate-limited request with no cached
entry yields a plain 429 whose header list is empty — no Retry-After
hint — while the claim asserts a retry hint for every rate-limited
response without cached data. -/
theorem upstream429_no_retry_hint_cex :
    (proxy_handler st0 emptyCache oracle429 reqPlain 0 0).1 =
      { status := 429, headers := [], body := "Upstream rate limited" } ∧
    lookupA (proxy_handler st0 emptyCache oracle429 reqPlain 0 0).1.headers
      "Retry-After" = none := by
  decide

theorem primary_outcome_marks_nofb (st : AppState) (c1 : ProxyCache)
    (fetchResult : UpstreamCall → FetchOutcome)
    (rooftop_id endpoint cache_endpoint : String)
    (params : List (String × String)) (call : UpstreamCall)
    (wallNow monoNow : Int)
    (h1 : lookupA c1.last_attempt (cache_key rooftop_id cache_endpoint)
      ≠ none) :
    lookupA (primary_outcome st c1 fetchResult none rooftop_id endpoint
        cache_endpoint params call wallNow monoNow).2.1.last_attempt
      (cache_key rooftop_id cache_endpoint) ≠ none := by
  unfold primary_outcome
  cases hf : fetchResult call with
  | success b ct => exact h1
  | rateLimited =>
    unfold rateLimitedFallthrough
    dsimp only
    cases (c1.mark_failed_attempt rooftop_id cache_endpoint st.rate_limit 3600
        monoNow).get rooftop_id cache_endpoint wallNow with
    | none => simp [lookupA_insertA]
    | some p => simp [lookupA_insertA]
  | error s b =>
    dsimp only
    cases (c1.mark_failed_attempt rooftop_id cache_endpoint st.rate_limit 60
        monoNow).get rooftop_id cache_endpoint wallNow with
    | none => simp [lookupA_insertA]
    | some p => simp [lookupA_insertA]
  | transportErr m =>
    dsimp only
    cases (c1.mark_failed_attempt rooftop_id cache_endpoint st.rate_limit 60
        monoNow).get rooftop_id cache_endpoint wallNow with
    | none => simp [lookupA_insertA]
    | some p => simp [lookupA_insertA]

/-- C10: a request whose Authorization header is missing or lacks the
"Bearer " front is not rejected by the proxy: with a valid endpoint, a
non-fresh cache and an admitted bucket (no fallback headers), the
extracted credential is empty, the handler issues exactly one upstream
call carrying the empty bearer credential, the bucket's attempt record
is set, and only the upstream outcome is surfaced — for an upstream
error with no cached entry, the upstream's own status and body. -/
theorem missing_authorization_not_rejected (st : AppState) (c : ProxyCache)
    (fetchResult : UpstreamCall → FetchOutcome) (req : Request)
    (wallNow monoNow : Int) (s : Nat) (b : String)
    (hcc : req.cache_control = none)
    (hfk : req.fallback_api_key = none)
    (hfs : req.fallback_site_id = none)
    (hauth : req.authorization = none ∨
      ∃ v, req.authorization = some v ∧
        "Bearer ".toList.isPrefixOf v.toList = false)
    (hvalid : req.endpoint = "forecasts" ∨ req.endpoint = "estimated_actuals")
    (hnf : c.is_fresh req.rooftop_id
      (cacheEndpointOf req.endpoint req.params) st.ttl wallNow = false)
    (hcf : c.can_fetch req.rooftop_id
      (cacheEndpointOf req.endpoint req.params) st.rate_limit monoNow
        = true) :
    extractApiKey req = "" ∧
    (proxy_handler st c fetchResult req wallNow monoNow).2.2 =
      [{ site_id := req.rooftop_id, endpoint := req.endpoint, api_key := "",
         params := req.params }] ∧
    lookupA (proxy_handler st c fetchResult req wallNow
        monoNow).2.1.last_attempt
      (cache_key req.rooftop_id (cacheEndpointOf req.endpoint req.params))
        ≠ none ∧
    (fetchResult { site_id := req.rooftop_id, endpoint := req.endpoint,
                   api_key := "", params := req.params } = .error s b →
      lookupA c.entries (cache_key req.rooftop_id
        (cacheEndpointOf req.endpoint req.params)) = none →
      (proxy_handler st c fetchResult req wallNow monoNow).1 =
        { status := s, headers := [], body := b }) := by
  have hkey : extractApiKey req = "" := by
    unfold extractApiKey
    rcases hauth with h | ⟨v, hv, hbp⟩
    · rw [h]
    · rw [hv]
      dsimp only
      rw [hbp]
      rfl
  have hfr : force_refresh req = false := by
    unfold force_refresh
    rw [hcc]
  have hfb : extract_fallback req = none := by
    unfold extract_fallback
    rw [hfk, hfs]
  have hroute : proxy_handler st c fetchResult req wallNow monoNow =
      primary_outcome st
        (c.mark_attempt req.rooftop_id
          (cacheEndpointOf req.endpoint req.params) monoNow)
        fetchResult none req.rooftop_id req.endpoint
        (cacheEndpointOf req.endpoint req.params) req.params
        { site_id := req.rooftop_id, endpoint := req.endpoint, api_key := "",
          params := req.params } wallNow monoNow := by
    rw [proxy_handler_not_fresh st c fetchResult req wallNow monoNow hvalid
        hfr hnf,
      proxy_after_fresh_go st c fetchResult req _ false wallNow monoNow
        (Or.inr hcf),
      hfb, hkey]
  refine ⟨hkey, ?_, ?_, fun herr hnone => ?_⟩
  · rw [hroute, primary_outcome_calls_nofb]
  · rw [hroute]
    apply primary_outcome_marks_nofb
    rw [mark_attempt_last, lookupA_insertA, if_pos rfl]
    simp
  · rw [hroute]
    unfold primary_outcome
    rw [herr]
    dsimp only
    have hg : ((c.mark_attempt req.rooftop_id
        (cacheEndpointOf req.endpoint req.params) monoNow).mark_failed_attempt
        req.rooftop_id (cacheEndpointOf req.endpoint req.params)
        st.rate_limit 60 monoNow).get req.rooftop_id
        (cacheEndpointOf req.endpoint req.params) wallNow = none :=
      get_of_none _ _ _ _ hnone
    rw [hg]

/-- Witness for `missing_authorization_not_rejected`: a request whose
Authorization header is "Token xyz" (not Bearer-prefixed) still issues
the upstream call with an empty credential. -/
theorem missing_authorization_not_rejected_witness :
    extractApiKey
      { rooftop_id := "site1", endpoint := "forecasts",
        params := [], cache_control := none,
        authorization := some "Token xyz", fallback_api_key := none,
        fallback_site_id := none } = "" ∧
    (proxy_handler st0 emptyCache oracleOk
      { rooftop_id := "site1", endpoint := "forecasts", params := [],
        cache_control := none, authorization := some "Token xyz",
        fallback_api_key := none, fallback_site_id := none } 0 0).2.2 =
      [{ site_id := "site1", endpoint := "forecasts", api_key := "",
         params := [] }] ∧
    lookupA (proxy_handler st0 emptyCache oracleOk
      { rooftop_id := "site1", endpoint := "forecasts", params := [],
        cache_control := none, authorization := some "Token xyz",
        fallback_api_key := none, fallback_site_id := none }
        0 0).2.1.last_attempt (cache_key "site1" "forecasts") ≠ none ∧
    (oracleOk
        { site_id := "site1", endpoint := "forecasts", api_key := "",
          params := [] } = .error 500 "E" →
      lookupA (emptyCache.entries) (cache_key "site1" "forecasts") = none →
      (proxy_handler st0 emptyCache oracleOk
        { rooftop_id := "site1", endpoint := "forecasts", params := [],
          cache_control := none, authorization := some "Token xyz",
          fallback_api_key := none, fallback_site_id := none } 0 0).1 =
        { status := 500, headers := [], body := "E" }) :=
  missing_authorization_not_rejected st0 emptyCache oracleOk
    { rooftop_id := "site1", endpoint := "forecasts", params := [],
      cache_control := none, authorization := some "Token xyz",
      fallback_api_key := none, fallback_site_id := none } 0 0 500 "E"
    rfl rfl rfl (Or.inr ⟨"Token xyz", rfl, by decide⟩) (Or.inl rfl)
    (by decide) (by decide)

/-- A store holding one fresh entry for site1/forecasts. -/
def cWithEntry : ProxyCache :=
  { entries := [(cache_key "site1" "forecasts",
      { body := "B", content_type := "application/json", fetched_at := 0 })],
    last_attempt := [] }

/-- C9: the cache key and primary rate-limit bucket derive only from the
rooftop identifier, the endpoint name and the query parameters — never
from the Authorization header: within TTL, requests that differ in their
Authorization credential (and even in their fallback headers, upstream
behaviour and times) are each served the same cached body as a HIT,
without touching the store or calling upstream. -/
theorem authorization_not_in_cache_key (st : AppState) (c : ProxyCache)
    (fetchResult fetchResult2 : UpstreamCall → FetchOutcome)
    (rooftop_id ep : String) (params : List (String × String))
    (auth1 auth2 fbk1 fbs1 fbk2 fbs2 : Option String)
    (wallNow monoNow wallNow2 monoNow2 : Int) (en : CacheEntry)
    (hvalid : ep = "forecasts" ∨ ep = "estimated_actuals")
    (hen : lookupA c.entries
      (cache_key rooftop_id (cacheEndpointOf ep params)) = some en)
    (hage : 0 ≤ wallNow - en.fetched_at)
    (httl : wallNow - en.fetched_at < (st.ttl : Int))
    (hage2 : 0 ≤ wallNow2 - en.fetched_at)
    (httl2 : wallNow2 - en.fetched_at < (st.ttl : Int)) :
    proxy_handler st c fetchResult
      { rooftop_id := rooftop_id, endpoint := ep, params := params,
        cache_control := none, authorization := auth1,
        fallback_api_key := fbk1, fallback_site_id := fbs1 }
      wallNow monoNow =
      (cached_response en.body en.content_type "HIT"
        (wallNow - en.fetched_at), c, []) ∧
    proxy_handler st c fetchResult2
      { rooftop_id := rooftop_id, endpoint := ep, params := params,
        cache_control := none, authorization := auth2,
        fallback_api_key := fbk2, fallback_site_id := fbs2 }
      wallNow2 monoNow2 =
      (cached_response en.body en.content_type "HIT"
        (wallNow2 - en.fetched_at), c, []) := by
  have hfresh1 : c.is_fresh rooftop_id (cacheEndpointOf ep params) st.ttl
      wallNow = true :=
    (is_fresh_iff c rooftop_id (cacheEndpointOf ep params) st.ttl
      wallNow).mpr ⟨en, hen, hage, httl⟩
  have hfresh2 : c.is_fresh rooftop_id (cacheEndpointOf ep params) st.ttl
      wallNow2 = true :=
    (is_fresh_iff c rooftop_id (cacheEndpointOf ep params) st.ttl
      wallNow2).mpr ⟨en, hen, hage2, httl2⟩
  exact ⟨proxy_handler_hit st c fetchResult
      { rooftop_id := rooftop_id, endpoint := ep, params := params,
        cache_control := none, authorization := auth1,
        fallback_api_key := fbk1, fallback_site_id := fbs1 }
      wallNow monoNow hvalid rfl hfresh1 en hen,
    proxy_handler_hit st c fetchResult2
      { rooftop_id := rooftop_id, endpoint := ep, params := params,
        cache_control := none, authorization := auth2,
        fallback_api_key := fbk2, fallback_site_id := fbs2 }
      wallNow2 monoNow2 hvalid rfl hfresh2 en hen⟩

/-- Witness for `authorization_not_in_cache_key`: two different bearer
credentials both receive the cached body as a HIT. -/
theorem authorization_not_in_cache_key_witness :
    proxy_handler st0 cWithEntry oracleOk
      { rooftop_id := "site1", endpoint := "forecasts", params := [],
        cache_control := none, authorization := some "Bearer key1",
        fallback_api_key := none, fallback_site_id := none } 10 10 =
      (cached_response "B" "application/json" "HIT" 10, cWithEntry, []) ∧
    proxy_handler st0 cWithEntry oracle429
      { rooftop_id := "site1", endpoint := "forecasts", params := [],
        cache_control := none, authorization := some "Bearer key2",
        fallback_api_key := none, fallback_site_id := none } 20 20 =
      (cached_response "B" "application/json" "HIT" 20, cWithEntry, []) :=
  authorization_not_in_cache_key st0 cWithEntry oracleOk oracle429 "site1"
    "forecasts" [] (some "Bearer key1") (some "Bearer key2") none none none
    none 10 10 20 20
    { body := "B", content_type := "application/json", fetched_at := 0 }
    (Or.inl rfl) rfl (by decide) (by decide) (by decide) (by decide)

/-- An upstream that rate-limits the primary account but succeeds for the
fallback site. -/
def oracleFb : UpstreamCall → FetchOutcome := fun call =>
  if call.site_id = "fbsite" then .success "FB" "application/json"
  else .rateLimited

/-- C3: when the primary attempt comes back upstream-rate-limited and
fallback credentials are supplied, an admitted and successful fallback
fetch is admitted and marked on the namespaced bucket
`fallback:<fallback-site-id>`, stores the fetched body under the
original resource's cache key, and returns a response tagged FALLBACK
(the trace shows the primary then the fallback call); a subsequent
request within TTL using only primary credentials is then served a HIT
with that body for the same key. -/
theorem fallback_success_tagged_and_cached (st : AppState) (c : ProxyCache)
    (fetchResult fetchResult2 : UpstreamCall → FetchOutcome)
    (rooftop_id ep : String) (params : List (String × String))
    (auth auth2 : Option String) (fbk fbs body ct : String)
    (wall1 mono1 wall2 mono2 : Int)
    (hvalid : ep = "forecasts" ∨ ep = "estimated_actuals")
    (hnf : c.is_fresh rooftop_id (cacheEndpointOf ep params) st.ttl wall1
      = false)
    (hcf : c.can_fetch rooftop_id (cacheEndpointOf ep params) st.rate_limit
      mono1 = true)
    (hprim : fetchResult (primaryCall
      { rooftop_id := rooftop_id, endpoint := ep, params := params,
        cache_control := none, authorization := auth,
        fallback_api_key := some fbk, fallback_site_id := some fbs }) =
      .rateLimited)
    (hfbcf : (c.mark_attempt rooftop_id (cacheEndpointOf ep params)
      mono1).can_fetch ("fallback:" ++ fbs) (cacheEndpointOf ep params)
      st.rate_limit mono1 = true)
    (hfb : fetchResult
      { site_id := fbs, endpoint := ep, api_key := fbk, params := params } =
      .success body ct)
    (hkeys : cache_key rooftop_id (cacheEndpointOf ep params) ≠
      cache_key ("fallback:" ++ fbs) (cacheEndpointOf ep params))
    (hage : 0 ≤ wall2 - wall1) (httl : wall2 - wall1 < (st.ttl : Int)) :
    (proxy_handler st c fetchResult
      { rooftop_id := rooftop_id, endpoint := ep, params := params,
        cache_control := none, authorization := auth,
        fallback_api_key := some fbk, fallback_site_id := some fbs }
      wall1 mono1).1 = cached_response body ct "FALLBACK" 0 ∧
    lookupA (proxy_handler st c fetchResult
      { rooftop_id := rooftop_id, endpoint := ep, params := params,
        cache_control := none, authorization := auth,
        fallback_api_key := some fbk, fallback_site_id := some fbs }
      wall1 mono1).2.1.entries
      (cache_key rooftop_id (cacheEndpointOf ep params)) =
        some { body := body, content_type := ct, fetched_at := wall1 } ∧
    lookupA (proxy_handler st c fetchResult
      { rooftop_id := rooftop_id, endpoint := ep, params := params,
        cache_control := none, authorization := auth,
        fallback_api_key := some fbk, fallback_site_id := some fbs }
      wall1 mono1).2.1.last_attempt
      (cache_key ("fallback:" ++ fbs) (cacheEndpointOf ep params)) =
        some mono1 ∧
    (proxy_handler st c fetchResult
      { rooftop_id := rooftop_id, endpoint := ep, params := params,
        cache_control := none, authorization := auth,
        fallback_api_key := some fbk, fallback_site_id := some fbs }
      wall1 mono1).2.2 =
      [primaryCall
        { rooftop_id := rooftop_id, endpoint := ep, params := params,
          cache_control := none, authorization := auth,
          fallback_api_key := some fbk, fallback_site_id := some fbs },
       { site_id := fbs, endpoint := ep, api_key := fbk,
         params := params }] ∧
    proxy_handler st (proxy_handler st c fetchResult
      { rooftop_id := rooftop_id, endpoint := ep, params := params,
        cache_control := none, authorization := auth,
        fallback_api_key := some fbk, fallback_site_id := some fbs }
      wall1 mono1).2.1 fetchResult2
      { rooftop_id := rooftop_id, endpoint := ep, params := params,
        cache_control := none, authorization := auth2,
        fallback_api_key := none, fallback_site_id := none }
      wall2 mono2 =
      (cached_response body ct "HIT" (wall2 - wall1),
        (proxy_handler st c fetchResult
          { rooftop_id := rooftop_id, endpoint := ep, params := params,
            cache_control := none, authorization := auth,
            fallback_api_key := some fbk, fallback_site_id := some fbs }
          wall1 mono1).2.1, []) := by
  have hfr1 : force_refresh
      { rooftop_id := rooftop_id, endpoint := ep, params := params,
        cache_control := none, authorization := auth,
        fallback_api_key := some fbk, fallback_site_id := some fbs } =
      false := rfl
  have hfb1 : extract_fallback
      { rooftop_id := rooftop_id, endpoint := ep, params := params,
        cache_control := none, authorization := auth,
        fallback_api_key := some fbk, fallback_site_id := some fbs } =
      some { api_key := fbk, site_id := fbs } := rfl
  have htf : try_fallback st
      (c.mark_attempt rooftop_id (cacheEndpointOf ep params) mono1)
      fetchResult { api_key := fbk, site_id := fbs } rooftop_id ep
      (cacheEndpointOf ep params) params wall1 mono1 =
      (some (cached_response body ct "FALLBACK" 0),
        ((c.mark_attempt rooftop_id (cacheEndpointOf ep params)
          mono1).mark_attempt ("fallback:" ++ fbs)
          (cacheEndpointOf ep params) mono1).set rooftop_id
          (cacheEndpointOf ep params) body ct wall1,
        [{ site_id := fbs, endpoint := ep, api_key := fbk,
           params := params }]) := by
    unfold try_fallback
    dsimp only
    rw [hfbcf, if_neg (by simp : ¬(true = false))]
    rw [hfb]
  have hroute : proxy_handler st c fetchResult
      { rooftop_id := rooftop_id, endpoint := ep, params := params,
        cache_control := none, authorization := auth,
        fallback_api_key := some fbk, fallback_site_id := some fbs }
      wall1 mono1 =
      (cached_response body ct "FALLBACK" 0,
        (((c.mark_attempt rooftop_id (cacheEndpointOf ep params)
          mono1).mark_attempt ("fallback:" ++ fbs)
          (cacheEndpointOf ep params) mono1).set rooftop_id
          (cacheEndpointOf ep params) body ct
          wall1).mark_failed_attempt rooftop_id (cacheEndpointOf ep params)
          st.rate_limit 3600 mono1,
        [primaryCall
          { rooftop_id := rooftop_id, endpoint := ep, params := params,
            cache_control := none, authorization := auth,
            fallback_api_key := some fbk, fallback_site_id := some fbs },
         { site_id := fbs, endpoint := ep, api_key := fbk,
           params := params }]) := by
    rw [proxy_handler_not_fresh st c fetchResult
        { rooftop_id := rooftop_id, endpoint := ep, params := params,
          cache_control := none, authorization := auth,
          fallback_api_key := some fbk, fallback_site_id := some fbs }
        wall1 mono1 hvalid hfr1 hnf,
      proxy_after_fresh_go st c fetchResult
        { rooftop_id := rooftop_id, endpoint := ep, params := params,
          cache_control := none, authorization := auth,
          fallback_api_key := some fbk, fallback_site_id := some fbs }
        _ false wall1 mono1 (Or.inr hcf),
      hfb1]
    unfold primary_outcome
    unfold primaryCall at hprim
    dsimp only at hprim ⊢
    rw [hprim]
    dsimp only
    rw [htf]
    rfl
  refine ⟨?_, ?_, ?_, ?_, ?_⟩
  · rw [hroute]
  · rw [hroute]
    simp [lookupA_insertA]
  · rw [hroute]
    simp [lookupA_insertA, hkeys]
  · rw [hroute]
  · have hlk4 : lookupA ((((c.mark_attempt rooftop_id
        (cacheEndpointOf ep params) mono1).mark_attempt
        ("fallback:" ++ fbs) (cacheEndpointOf ep params) mono1).set
        rooftop_id (cacheEndpointOf ep params) body ct
        wall1).mark_failed_attempt rooftop_id (cacheEndpointOf ep params)
        st.rate_limit 3600 mono1).entries
        (cache_key rooftop_id (cacheEndpointOf ep params)) =
        some { body := body, content_type := ct, fetched_at := wall1 } := by
      simp [lookupA_insertA]
    have hfresh2 : ((((c.mark_attempt rooftop_id
        (cacheEndpointOf ep params) mono1).mark_attempt
        ("fallback:" ++ fbs) (cacheEndpointOf ep params) mono1).set
        rooftop_id (cacheEndpointOf ep params) body ct
        wall1).mark_failed_attempt rooftop_id (cacheEndpointOf ep params)
        st.rate_limit 3600 mono1).is_fresh rooftop_id
        (cacheEndpointOf ep params) st.ttl wall2 = true :=
      (is_fresh_iff _ _ _ _ _).mpr
        ⟨{ body := body, content_type := ct, fetched_at := wall1 }, hlk4,
          hage, httl⟩
    rw [hroute]
    exact proxy_handler_hit st _ fetchResult2
      { rooftop_id := rooftop_id, endpoint := ep, params := params,
        cache_control := none, authorization := auth2,
        fallback_api_key := none, fallback_site_id := none }
      wall2 mono2 hvalid rfl hfresh2
      { body := body, content_type := ct, fetched_at := wall1 } hlk4

/-- Witness for `fallback_success_tagged_and_cached`: the concrete
fallback scenario against an empty store with the default config. -/
theorem fallback_success_tagged_and_cached_witness :
    (proxy_handler st0 emptyCache oracleFb
      { rooftop_id := "site1", endpoint := "forecasts", params := [],
        cache_control := none, authorization := none,
        fallback_api_key := some "fbkey", fallback_site_id := some "fbsite" }
      0 0).1 = cached_response "FB" "application/json" "FALLBACK" 0 :=
  (fallback_success_tagged_and_cached st0 emptyCache oracleFb oracleFb
    "site1" "forecasts" [] none none "fbkey" "fbsite" "FB"
    "application/json" 0 0 10 10 (Or.inl rfl) (by decide) (by decide)
    (by decide) (by decide) (by decide) (by decide) (by decide)
    (by decide)).1

end SolcastProxy
